import Mathlib

/-!
# VoidRunner combat-and-progression core: a shallow embedding

This file embeds the combat/progression core of the VoidRunner arcade
shooter (Python) into Lean 4 and proves properties of the embedded
operations.

Conventions of the embedding:
* Python floats are modelled as exact rationals (`ℚ`); Python ints as `ℤ`
  or `ℕ`.
* Python `int(x)` (truncation toward zero) is modelled by `pyInt`.
* The library functions `math.sin` / `math.cos` are kept abstract as
  function parameters (`msin`, `mcos`).
* pygame rectangle-overlap collision detection is kept abstract as a
  boolean predicate parameter (`collides`).
* Mutation is modelled by explicit state passing: each method becomes a
  function from the old state (plus arguments) to the new state, paired
  with the method's return value where the method returns one.

Constants are taken from `voidrunner/utils/config.py`.  A few constants
referenced by the managers and the boss are missing from that file; those
are modelled from the spec and marked as such in their doc comments.
-/

/-- `config.BULLET_DAMAGE` (= 1). -/
def BULLET_DAMAGE : ℤ := 1

/-- `config.STREAK_BONUS_THRESHOLD` (= 5 kills without taking damage). -/
def STREAK_BONUS_THRESHOLD : ℕ := 5

/-- `config.STREAK_BONUS_MULTIPLIER` (= 1.5). -/
def STREAK_BONUS_MULTIPLIER : ℚ := 3 / 2

/-- `config.ENEMIES_PER_WAVE_BASE` (= 5). -/
def ENEMIES_PER_WAVE_BASE : ℕ := 5

/-- `config.ENEMIES_PER_WAVE_INCREMENT` (= 2). -/
def ENEMIES_PER_WAVE_INCREMENT : ℕ := 2

/-- `config.ENEMY_SPAWN_RATE_BASE` (= 2.0 seconds between spawns). -/
def ENEMY_SPAWN_RATE_BASE : ℚ := 2

/-- `config.WAVE_DIFFICULTY_MULTIPLIER` (= 1.15). -/
def WAVE_DIFFICULTY_MULTIPLIER : ℚ := 115 / 100

/-- `config.ENEMY_BULLET_SPEED` (= 4.0). -/
def ENEMY_BULLET_SPEED : ℚ := 4

/-- `config.ENEMY_BASE_SPEED` (= 2.0). -/
def ENEMY_BASE_SPEED : ℚ := 2

/-- `config.BASIC_ENEMY_SPEED_MULT` (= 1.0). -/
def BASIC_ENEMY_SPEED_MULT : ℚ := 1

/-- `config.ZIGZAG_ENEMY_SPEED_MULT` (= 1.2). -/
def ZIGZAG_ENEMY_SPEED_MULT : ℚ := 12 / 10

/-- `config.BASIC_ENEMY_HEALTH` (= 1). -/
def BASIC_ENEMY_HEALTH : ℤ := 1

/-- `config.ZIGZAG_ENEMY_HEALTH` (= 1). -/
def ZIGZAG_ENEMY_HEALTH : ℤ := 1

/-- `config.BASIC_ENEMY_POINTS` (= 10). -/
def BASIC_ENEMY_POINTS : ℤ := 10

/-- `config.CHASER_ENEMY_POINTS` (= 25). -/
def CHASER_ENEMY_POINTS : ℤ := 25

/-- `config.ZIGZAG_ENEMY_POINTS` (= 20). -/
def ZIGZAG_ENEMY_POINTS : ℤ := 20

/-- `config.BASIC_ENEMY_SHOOT_CHANCE` (= 0.02 per-frame chance). -/
def BASIC_ENEMY_SHOOT_CHANCE : ℚ := 2 / 100

/-- `config.PLAYER_MAX_HEALTH` (= 3). -/
def PLAYER_MAX_HEALTH : ℚ := 3

/-- `config.PLAYER_INVINCIBILITY_DURATION` (= 1.5 seconds). -/
def PLAYER_INVINCIBILITY_DURATION : ℚ := 3 / 2

/-- `config.DAMAGE_FLASH_DURATION` (= 0.15 seconds). -/
def DAMAGE_FLASH_DURATION : ℚ := 15 / 100

/-- Modelled from the spec: `config.BOSS_WAVE_INTERVAL` is referenced by
`SpawnManager.is_boss_wave` but its definition is missing from
`voidrunner/utils/config.py`.  Spec §4.1 / glossary: boss waves are every
5th wave; the repository's tests use waves 5, 10, 15. -/
def BOSS_WAVE_INTERVAL : ℕ := 5

/-- Modelled from the spec: `config.DIFFICULTY_SCALE_INTERVAL` is
referenced by `SpawnManager.advance_wave` but its definition is missing
from `voidrunner/utils/config.py`.  Spec §8 and the code comments /
tests: scaling happens on waves 6, 12, 18, so the interval is 6. -/
def DIFFICULTY_SCALE_INTERVAL : ℕ := 6

/-- Modelled from the spec: `config.ENEMY_BULLET_SPEED_SCALE` is
referenced by `SpawnManager.advance_wave` but its definition is missing
from `voidrunner/utils/config.py`.  Spec §3 and the tests require a value
greater than 1 (bullet speed grows per tier); 1.2 is a representative
such value, used only to build concrete witnesses. -/
def ENEMY_BULLET_SPEED_SCALE : ℚ := 12 / 10

/-- Modelled from the spec: `config.ENEMY_FIRE_RATE_SCALE` is referenced
by `SpawnManager.advance_wave` but its definition is missing from
`voidrunner/utils/config.py`.  Spec §4.3 ("multiplier <1 shortens
cooldown") and the repository's tests (`fire_rate_multiplier < 1.0` after
one scaling event) require a value smaller than 1; 0.9 is a
representative such value, used only to build concrete witnesses. -/
def ENEMY_FIRE_RATE_SCALE : ℚ := 9 / 10

/-- Python's `int()` applied to a rational: truncation toward zero. -/
def pyInt (q : ℚ) : ℤ := if q < 0 then -⌊-q⌋ else ⌊q⌋

/-- On nonnegative inputs `pyInt` is the floor. -/
theorem pyInt_of_nonneg {q : ℚ} (h : 0 ≤ q) : pyInt q = ⌊q⌋ := by
  unfold pyInt
  rcases lt_or_eq_of_le h with h' | h'
  · simp [not_lt.mpr (le_of_lt h')]
  · simp [← h']

/-- Characterisation of `pyInt` on nonnegative inputs. -/
theorem pyInt_eq_of_bounds {q : ℚ} {z : ℤ} (h0 : 0 ≤ q) (h1 : (z : ℚ) ≤ q)
    (h2 : q < z + 1) : pyInt q = z := by
  rw [pyInt_of_nonneg h0]
  exact Int.floor_eq_iff.mpr ⟨by exact_mod_cast h1, by exact_mod_cast h2⟩

/-! ## Player (`voidrunner/entities/player.py`)

Only the fields touched by the damage/streak operations are modelled;
position, velocity, cooldown and sprite state play no role in the claims
about `take_damage` and `add_kill_to_streak`. -/

/-- State of a `Player` relevant to damage, lives and the kill streak. -/
structure PlayerState where
  lives : ℤ
  health : ℚ
  max_lives : ℤ
  max_health : ℚ
  invincible : Bool
  invincibility_timer : ℚ
  damage_flash_timer : ℚ
  time_since_damage : ℚ
  kill_streak : ℕ

/-- `Player.take_damage(amount)`: apply damage (health first, then lose a
life).  Returns the new state and the method's return value (`True` iff
the player died).  Mirrors the source: on the death path the method
returns before the kill-streak reset and the invincibility trigger. -/
def Player.take_damage (amount : ℚ) (p : PlayerState) : PlayerState × Bool :=
  if p.invincible then (p, false)
  else
    let p1 : PlayerState := { p with time_since_damage := 0, health := p.health - amount }
    if p1.health ≤ 0 then
      let p2 : PlayerState := { p1 with lives := p1.lives - 1 }
      if 0 < p2.lives then
        ({ p2 with
            health := p2.max_health
            kill_streak := 0
            invincible := true
            invincibility_timer := PLAYER_INVINCIBILITY_DURATION
            damage_flash_timer := DAMAGE_FLASH_DURATION }, false)
      else
        ({ p2 with health := 0 }, true)
    else
      ({ p1 with
          kill_streak := 0
          invincible := true
          invincibility_timer := PLAYER_INVINCIBILITY_DURATION
          damage_flash_timer := DAMAGE_FLASH_DURATION }, false)

/-- `Player.add_kill_to_streak()`: increment the kill streak counter. -/
def Player.add_kill_to_streak (p : PlayerState) : PlayerState :=
  { p with kill_streak := p.kill_streak + 1 }

/-! ## Enemy base class (`voidrunner/entities/enemy.py`) -/

/-- State of an `Enemy` relevant to damage and shooting. -/
structure EnemyState where
  health : ℤ
  max_health : ℤ
  speed : ℚ
  score_value : ℤ
  can_shoot : Bool
  shoot_timer : ℚ
  bullet_speed_multiplier : ℚ
  fire_rate_multiplier : ℚ
  damage_flash_timer : ℚ

/-- `Enemy.take_damage(amount)`: subtract `amount` from health (no
clamping), flash if still alive, and return `True` iff health is now
`<= 0`. -/
def Enemy.take_damage (amount : ℤ) (e : EnemyState) : EnemyState × Bool :=
  let e1 : EnemyState := { e with health := e.health - amount }
  let e2 : EnemyState :=
    if 0 < e1.health then { e1 with damage_flash_timer := DAMAGE_FLASH_DURATION } else e1
  (e2, decide (e2.health ≤ 0))

/-- `Enemy.should_shoot()`: probabilistic shooting.  The random draw
`random.random()` is passed in as `r`.  On success the cooldown is reset
to `base_cooldown * fire_rate_multiplier` with `base_cooldown = 2.0`. -/
def Enemy.should_shoot (r : ℚ) (e : EnemyState) : EnemyState × Bool :=
  if !e.can_shoot then (e, false)
  else if e.shoot_timer ≤ 0 then
    if r < BASIC_ENEMY_SHOOT_CHANCE then
      ({ e with shoot_timer := 2 * e.fire_rate_multiplier }, true)
    else (e, false)
  else (e, false)

/-- Owner tag of a bullet. -/
inductive Owner where
  | player
  | enemy
deriving DecidableEq, Repr

/-- State of a `Bullet` (`voidrunner/entities/bullet.py`). -/
structure BulletState where
  pos : ℚ × ℚ
  vel : ℚ × ℚ
  owner : Owner
  damage : ℤ

/-- `Enemy.create_bullet`: a bullet moving straight down at
`ENEMY_BULLET_SPEED * bullet_speed_multiplier`, owned by `"enemy"`,
spawned at the enemy's rect centre-bottom (passed in as `cx`, `bottom`). -/
def Enemy.create_bullet (cx bottom : ℚ) (e : EnemyState) : BulletState :=
  { pos := (cx, bottom)
    vel := (0, ENEMY_BULLET_SPEED * e.bullet_speed_multiplier)
    owner := Owner.enemy
    damage := BULLET_DAMAGE }

/-- `BasicEnemy.__init__`: health 1, speed `ENEMY_BASE_SPEED * 1.0`,
score 10, shooting enabled, difficulty multipliers passed in by the
spawner. -/
def BasicEnemy.init (bsm frm : ℚ) : EnemyState :=
  { health := BASIC_ENEMY_HEALTH
    max_health := BASIC_ENEMY_HEALTH
    speed := ENEMY_BASE_SPEED * BASIC_ENEMY_SPEED_MULT
    score_value := BASIC_ENEMY_POINTS
    can_shoot := true
    shoot_timer := 0
    bullet_speed_multiplier := bsm
    fire_rate_multiplier := frm
    damage_flash_timer := 0 }

/-! ## SpawnManager (`voidrunner/managers/spawn_manager.py`)

The two difficulty scale factors `ENEMY_BULLET_SPEED_SCALE` and
`ENEMY_FIRE_RATE_SCALE` have no definition under `src/`; the spawn-state
operations take them as explicit parameters `bss` / `frs` so that claims
can be settled for every possible value (the concrete spec-modelled
values above are used only in witnesses and counterexamples). -/

/-- State of a `SpawnManager`. -/
structure SpawnState where
  current_wave : ℕ
  enemies_spawned_this_wave : ℕ
  max_kills_this_wave : ℕ
  enemies_killed_this_wave : ℕ
  spawn_timer : ℚ
  spawn_interval : ℚ
  max_alive : ℕ
  boss_spawned : Bool
  boss_killed : Bool
  boss_level : ℕ
  difficulty_tier : ℕ
  bullet_speed_multiplier : ℚ
  fire_rate_multiplier : ℚ

/-- `SpawnManager.__init__`.  `maxAlive` stands for
`config.ENEMIES_ON_SCREEN_MAX`, whose definition is also missing from
`utils/config.py`; its value never matters for the claims below. -/
def SpawnManager.init (maxAlive : ℕ) : SpawnState :=
  { current_wave := 1
    enemies_spawned_this_wave := 0
    max_kills_this_wave := ENEMIES_PER_WAVE_BASE
    enemies_killed_this_wave := 0
    spawn_timer := 0
    spawn_interval := ENEMY_SPAWN_RATE_BASE
    max_alive := maxAlive
    boss_spawned := false
    boss_killed := false
    boss_level := 0
    difficulty_tier := 0
    bullet_speed_multiplier := 1
    fire_rate_multiplier := 1 }

/-- `SpawnManager.is_boss_wave()`: `current_wave % BOSS_WAVE_INTERVAL == 0`. -/
def SpawnManager.is_boss_wave (s : SpawnState) : Bool :=
  s.current_wave % BOSS_WAVE_INTERVAL == 0

/-- `SpawnManager.is_wave_complete(enemy_group)`.  The `enemy_group`
argument is unused by the source method, so it is not a parameter here. -/
def SpawnManager.is_wave_complete (s : SpawnState) : Bool :=
  let regular_enemies_done := s.max_kills_this_wave ≤ s.enemies_killed_this_wave
  if SpawnManager.is_boss_wave s then regular_enemies_done && s.boss_killed
  else regular_enemies_done

/-- `SpawnManager.register_boss_killed()`. -/
def SpawnManager.register_boss_killed (s : SpawnState) : SpawnState :=
  { s with boss_killed := true }

/-- `SpawnManager.register_enemy_killed()`. -/
def SpawnManager.register_enemy_killed (s : SpawnState) : SpawnState :=
  { s with enemies_killed_this_wave := s.enemies_killed_this_wave + 1 }

/-- `SpawnManager._spawn_boss(enemy_group)` restricted to its effect on
the manager's own state: the boss level is incremented (the constructed
`BossEnemy` itself is modelled separately below). -/
def SpawnManager.spawnBossEffect (s : SpawnState) : SpawnState :=
  { s with boss_level := s.boss_level + 1 }

/-- `SpawnManager.update(dt, enemy_group)` restricted to its effect on
the manager's own state.  The environment enters through `alive` (the
size of the live enemy group) and `existingBoss` (whether the group
already holds a `BossEnemy` instance). -/
def SpawnManager.update (dt : ℚ) (alive : ℕ) (existingBoss : Bool)
    (s : SpawnState) : SpawnState :=
  let s :=
    if SpawnManager.is_boss_wave s && !s.boss_spawned then
      let s := if !existingBoss then SpawnManager.spawnBossEffect s else s
      { s with boss_spawned := true }
    else s
  if s.max_kills_this_wave ≤ s.enemies_killed_this_wave then s
  else
    let s := { s with spawn_timer := s.spawn_timer + dt }
    let can_spawn := alive < s.max_alive ∧
      s.enemies_killed_this_wave < s.max_kills_this_wave
    if ¬can_spawn then s
    else if s.spawn_interval ≤ s.spawn_timer then
      { s with spawn_timer := 0,
               enemies_spawned_this_wave := s.enemies_spawned_this_wave + 1 }
    else s

/-- `SpawnManager.advance_wave()` with the two missing scale constants as
parameters `bss` (`ENEMY_BULLET_SPEED_SCALE`) and `frs`
(`ENEMY_FIRE_RATE_SCALE`). -/
def SpawnManager.advance_wave (bss frs : ℚ) (s : SpawnState) : SpawnState :=
  let s := { s with
    current_wave := s.current_wave + 1
    enemies_killed_this_wave := 0
    boss_spawned := false
    boss_killed := false }
  let s := { s with
    max_kills_this_wave :=
      ENEMIES_PER_WAVE_BASE + (s.current_wave - 1) * ENEMIES_PER_WAVE_INCREMENT }
  let s :=
    if s.current_wave % DIFFICULTY_SCALE_INTERVAL = 0 ∧
        ¬SpawnManager.is_boss_wave s then
      { s with
        difficulty_tier := s.difficulty_tier + 1
        bullet_speed_multiplier := s.bullet_speed_multiplier * bss
        fire_rate_multiplier := s.fire_rate_multiplier * frs }
    else s
  let s := { s with
    spawn_interval :=
      ENEMY_SPAWN_RATE_BASE / WAVE_DIFFICULTY_MULTIPLIER ^ (s.current_wave - 1) }
  let s := { s with spawn_interval := max (1 / 2) s.spawn_interval }
  { s with enemies_spawned_this_wave := 0, spawn_timer := 0 }

/-- The spawn state after `n` calls to `advance_wave` starting from a
fresh `SpawnManager`. -/
def SpawnManager.advanceIter (bss frs : ℚ) (maxAlive : ℕ) : ℕ → SpawnState
  | 0 => SpawnManager.init maxAlive
  | n + 1 => SpawnManager.advance_wave bss frs (SpawnManager.advanceIter bss frs maxAlive n)

/-- Does reaching wave `w` trigger a difficulty-scaling event?
(`w % DIFFICULTY_SCALE_INTERVAL == 0` and `w` is not a boss wave.) -/
def tierScales (w : ℕ) : Bool :=
  w % DIFFICULTY_SCALE_INTERVAL == 0 && !(w % BOSS_WAVE_INTERVAL == 0)

/-- Number of difficulty-scaling events seen after `n` calls to
`advance_wave` (the waves reached are `2, 3, ..., n + 1`). -/
def tierCount : ℕ → ℕ
  | 0 => 0
  | n + 1 => tierCount n + (if tierScales (n + 2) then 1 else 0)

/-! ## CollisionManager (`voidrunner/managers/collision_manager.py`)

`check_player_bullet_enemy_collisions` first builds the
`pygame.sprite.groupcollide(player_bullets, enemies, True, False)`
dictionary from the entities' (static) rectangles and then runs the
damage/score loop.  Rectangle overlap is abstracted as the predicate
`collides`.  Enemies are tracked by their index in the input list so
that a single enemy hit by several bullets accumulates damage exactly as
the aliased Python object does; the boolean paired with each enemy
records whether `kill()` removed it from the group. -/

/-- One iteration of the inner damage loop, on the enemy at index `i`:
apply the bullet's damage; if the enemy died, remove it, award
(possibly streak-scaled, `int()`-truncated) points and increment the
player's kill streak. -/
def CollisionManager.hitEnemy (dmg : ℤ) (pts : ℤ) (streak : ℕ)
    (em : List (EnemyState × Bool)) (i : ℕ) :
    ℤ × ℕ × List (EnemyState × Bool) :=
  match em.get? i with
  | none => (pts, streak, em)
  | some (e, rem) =>
      let r := Enemy.take_damage dmg e
      if r.2 then
        let base := r.1.score_value
        let pts' := if STREAK_BONUS_THRESHOLD ≤ streak
          then pts + pyInt ((base : ℚ) * STREAK_BONUS_MULTIPLIER)
          else pts + base
        (pts', streak + 1, em.set i (r.1, true))
      else (pts, streak, em.set i (r.1, rem))

/-- `CollisionManager.check_player_bullet_enemy_collisions`.  Returns
`(points_earned, new kill_streak, surviving player bullets,
enemies with their removed-flags)`. -/
def CollisionManager.check_player_bullet_enemy_collisions
    (collides : BulletState → EnemyState → Bool)
    (player_bullets : List BulletState) (enemies : List EnemyState)
    (streak : ℕ) :
    ℤ × ℕ × List BulletState × List (EnemyState × Bool) :=
  let hits : List (BulletState × List ℕ) :=
    player_bullets.filterMap fun b =>
      let idxs := (enemies.enum.filter fun p => collides b p.2).map Prod.fst
      if idxs.isEmpty then none else some (b, idxs)
  let surviving := player_bullets.filter fun b => !enemies.any (collides b)
  let st := hits.foldl
    (fun st bi => bi.2.foldl
      (fun st i => CollisionManager.hitEnemy bi.1.damage st.1 st.2.1 st.2.2 i) st)
    ((0 : ℤ), streak, enemies.map (fun e => (e, false)))
  (st.1, st.2.1, surviving, st.2.2)

/-! ## BossEnemy (`voidrunner/entities/enemies/boss_enemy.py`)

The `BOSS_*` constants read by the constructor have no definition under
`src/`, so the constructor takes them bundled as a parameter. -/

/-- Modelled from the spec: the `config.BOSS_*` constants referenced by
`BossEnemy.__init__` are missing from `voidrunner/utils/config.py`;
they are kept abstract as the fields of this record. -/
structure BossCfg where
  BOSS_BASE_HEALTH : ℤ
  BOSS_HEALTH_MULTIPLIER : ℚ
  BOSS_POINTS : ℤ
  BOSS_BASE_FIRE_RATE : ℚ
  BOSS_FIRE_RATE_DECREASE : ℚ
  BOSS_BULLET_SPEED_MULTIPLIER : ℚ

/-- State of a `BossEnemy` relevant to its level-derived stats and
shooting.  `rect_centerx` / `rect_bottom` carry the sprite-rectangle
coordinates used as the spawn point of its bullets. -/
structure BossState where
  boss_level : ℕ
  health : ℤ
  max_health : ℤ
  score_value : ℤ
  can_shoot : Bool
  fire_rate : ℚ
  bullet_speed_multiplier : ℚ
  shoot_timer : ℚ
  rect_centerx : ℚ
  rect_bottom : ℚ

/-- `BossEnemy.__init__(x, y, sprite, boss_level)`: level-derived stats.
`health` goes through Python's `int()` (modelled by `pyInt`). -/
def BossEnemy.init (c : BossCfg) (cx bottom : ℚ) (boss_level : ℕ) : BossState :=
  let health :=
    pyInt ((c.BOSS_BASE_HEALTH : ℚ) * c.BOSS_HEALTH_MULTIPLIER ^ (boss_level - 1))
  let fire_rate :=
    c.BOSS_BASE_FIRE_RATE * c.BOSS_FIRE_RATE_DECREASE ^ (boss_level - 1)
  { boss_level := boss_level
    health := health
    max_health := health
    score_value := c.BOSS_POINTS * (boss_level : ℤ)
    can_shoot := true
    fire_rate := fire_rate
    bullet_speed_multiplier := c.BOSS_BULLET_SPEED_MULTIPLIER ^ (boss_level - 1)
    shoot_timer := fire_rate
    rect_centerx := cx
    rect_bottom := bottom }

/-- The five fan angles of the penta-shot, as written in the source
(`[-0.524, -0.262, 0, 0.262, 0.524]` radians, the code's 3-decimal
radian renderings of −30°, −15°, 0°, 15°, 30°). -/
def PENTA_ANGLES : List ℚ := [-524 / 1000, -262 / 1000, 0, 262 / 1000, 524 / 1000]

/-- `BossEnemy.create_penta_shot(bullet_sprite)`: five bullets in a fan,
speed `ENEMY_BULLET_SPEED * bullet_speed_multiplier`, owner `"enemy"`.
`msin` abstracts `math.sin`. -/
def BossEnemy.create_penta_shot (msin : ℚ → ℚ) (b : BossState) : List BulletState :=
  let base_speed := ENEMY_BULLET_SPEED * b.bullet_speed_multiplier
  PENTA_ANGLES.map fun a =>
    { pos := (b.rect_centerx, b.rect_bottom)
      vel := (msin a * base_speed, base_speed)
      owner := Owner.enemy
      damage := BULLET_DAMAGE }

/-! ## ZigzagEnemy (`voidrunner/entities/enemies/zigzag_enemy.py`)

`update_behavior` plus the movement/timer part of the base-class
`Enemy.update`.  `mcos` abstracts `math.cos`.  The omitted parts of
`Enemy.update` (sprite restore, off-screen despawn) read only the
enemy's own rectangle, never the player position. -/

/-- State of a `ZigzagEnemy` relevant to its trajectory. -/
structure ZigzagState where
  position : ℚ × ℚ
  velocity : ℚ × ℚ
  speed : ℚ
  shoot_timer : ℚ
  damage_flash_timer : ℚ
  bullet_speed_multiplier : ℚ
  fire_rate_multiplier : ℚ
  time_alive : ℚ
  amplitude : ℚ
  frequency : ℚ

/-- `ZigzagEnemy.__init__`: speed `ENEMY_BASE_SPEED * 1.2`, oscillation
amplitude 120.0, frequency 2.5. -/
def ZigzagEnemy.init (x y bsm frm : ℚ) : ZigzagState :=
  { position := (x, y)
    velocity := (0, 0)
    speed := ENEMY_BASE_SPEED * ZIGZAG_ENEMY_SPEED_MULT
    shoot_timer := 0
    damage_flash_timer := 0
    bullet_speed_multiplier := bsm
    fire_rate_multiplier := frm
    time_alive := 0
    amplitude := 120
    frequency := 5 / 2 }

/-- `ZigzagEnemy.update_behavior(dt, player_pos)`: advance `time_alive`,
then set `velocity = (amplitude * frequency * cos(time_alive * frequency),
speed)`.  The `player_pos` argument is intentionally unused in the
source. -/
def ZigzagEnemy.update_behavior (mcos : ℚ → ℚ) (dt : ℚ) (player_pos : ℚ × ℚ)
    (z : ZigzagState) : ZigzagState :=
  let z := { z with time_alive := z.time_alive + dt }
  { z with velocity :=
      (z.amplitude * z.frequency * mcos (z.time_alive * z.frequency), z.speed) }

/-- `Enemy.update(dt, player_pos)` specialised to a `ZigzagEnemy`:
behavior, then `position += velocity * dt * 60`, then the shooting and
damage-flash timers count down. -/
def ZigzagEnemy.update (mcos : ℚ → ℚ) (dt : ℚ) (player_pos : ℚ × ℚ)
    (z : ZigzagState) : ZigzagState :=
  let z := ZigzagEnemy.update_behavior mcos dt player_pos z
  let z := { z with position :=
      (z.position.1 + z.velocity.1 * dt * 60, z.position.2 + z.velocity.2 * dt * 60) }
  let z := if 0 < z.shoot_timer then { z with shoot_timer := z.shoot_timer - dt } else z
  if 0 < z.damage_flash_timer then
    { z with damage_flash_timer := z.damage_flash_timer - dt }
  else z

/-- A zigzag enemy updated for `n` ticks, with per-tick delta times
`dts` and per-tick player positions `ps`. -/
def ZigzagEnemy.runTicks (mcos : ℚ → ℚ) (dts : ℕ → ℚ) (ps : ℕ → ℚ × ℚ) :
    ℕ → ZigzagState → ZigzagState
  | 0, z => z
  | n + 1, z => ZigzagEnemy.update mcos (dts n) (ps n)
      (ZigzagEnemy.runTicks mcos dts ps n z)

/-! ## Reachability of spawn states without `register_boss_killed`

`CollisionManager.check_all_collisions` (and the three checks it calls)
never receives the `SpawnManager`: its embedding above acts on bullets,
enemies and the player's streak only, so a collision-resolution call
leaves every `SpawnState` untouched and needs no constructor here.
`is_wave_complete` is likewise read-only. -/

/-- Spawn states reachable from a fresh `SpawnManager` by any finite
sequence of `update`, `advance_wave` and `register_enemy_killed` calls —
i.e. without `register_boss_killed`. -/
inductive SpawnReachable (bss frs : ℚ) : SpawnState → Prop where
  | init (maxAlive : ℕ) : SpawnReachable bss frs (SpawnManager.init maxAlive)
  | update {s : SpawnState} (dt : ℚ) (alive : ℕ) (eb : Bool) :
      SpawnReachable bss frs s →
      SpawnReachable bss frs (SpawnManager.update dt alive eb s)
  | advance {s : SpawnState} :
      SpawnReachable bss frs s →
      SpawnReachable bss frs (SpawnManager.advance_wave bss frs s)
  | kill {s : SpawnState} :
      SpawnReachable bss frs s →
      SpawnReachable bss frs (SpawnManager.register_enemy_killed s)

/-- `update` never writes `boss_killed`. -/
theorem SpawnManager.update_boss_killed (dt : ℚ) (alive : ℕ) (eb : Bool)
    (s : SpawnState) :
    (SpawnManager.update dt alive eb s).boss_killed = s.boss_killed := by
  simp only [SpawnManager.update, SpawnManager.spawnBossEffect]
  split_ifs <;> rfl

/-- `advance_wave` resets `boss_killed` to `false`. -/
theorem SpawnManager.advance_wave_boss_killed (bss frs : ℚ) (s : SpawnState) :
    (SpawnManager.advance_wave bss frs s).boss_killed = false := by
  simp only [SpawnManager.advance_wave]
  split_ifs <;> rfl

/-! ## Theorems for the claims -/

/-- **C1 (counterexample).** A non-invincible player with 1 life and
health 1 takes 2 damage: `take_damage` returns `True` (death) but — the
method returns before the tail of the damage handler — the kill streak
keeps its old value 7, and no invincibility window is started.  This
refutes the claim's "(including the event that causes death)". -/
theorem C1_death_skips_streak_reset :
    (Player.take_damage 2
        { lives := 1, health := 1, max_lives := 3, max_health := 3,
          invincible := false, invincibility_timer := 0,
          damage_flash_timer := 0, time_since_damage := 5,
          kill_streak := 7 }).2 = true ∧
    (Player.take_damage 2
        { lives := 1, health := 1, max_lives := 3, max_health := 3,
          invincible := false, invincibility_timer := 0,
          damage_flash_timer := 0, time_since_damage := 5,
          kill_streak := 7 }).1.kill_streak = 7 ∧
    (Player.take_damage 2
        { lives := 1, health := 1, max_lives := 3, max_health := 3,
          invincible := false, invincibility_timer := 0,
          damage_flash_timer := 0, time_since_damage := 5,
          kill_streak := 7 }).1.invincible = false := by
  refine ⟨?_, ?_, ?_⟩ <;> norm_num [Player.take_damage]

/-- **C1 (amended).**  For a call to `Player.take_damage` with positive
damage on a non-invincible player: the regen delay timer is reset on
every such event; health decreases by the damage amount unless a
life-loss reset intervenes; a life is deducted with health reset to max
when health drops `≤ 0` with more than one life left; the call returns
`True` exactly when health drops `≤ 0` on the last life; and the
kill-streak reset and invincibility window happen on every such event
*except* the one that causes death, where the method returns early and
leaves the streak and the invincibility state unchanged. -/
theorem C1_take_damage_characterisation (p : PlayerState) (amount : ℚ)
    (hI : p.invincible = false) (hA : 0 < amount) :
    ((Player.take_damage amount p).1.time_since_damage = 0) ∧
    ((Player.take_damage amount p).2 = true ↔
      (p.health - amount ≤ 0 ∧ p.lives ≤ 1)) ∧
    (0 < p.health - amount →
      (Player.take_damage amount p).1.health = p.health - amount ∧
      (Player.take_damage amount p).1.lives = p.lives ∧
      (Player.take_damage amount p).1.kill_streak = 0 ∧
      (Player.take_damage amount p).1.invincible = true ∧
      (Player.take_damage amount p).1.invincibility_timer =
        PLAYER_INVINCIBILITY_DURATION) ∧
    (p.health - amount ≤ 0 → 1 < p.lives →
      (Player.take_damage amount p).1.health = p.max_health ∧
      (Player.take_damage amount p).1.lives = p.lives - 1 ∧
      (Player.take_damage amount p).1.kill_streak = 0 ∧
      (Player.take_damage amount p).1.invincible = true ∧
      (Player.take_damage amount p).1.invincibility_timer =
        PLAYER_INVINCIBILITY_DURATION) ∧
    (p.health - amount ≤ 0 → p.lives ≤ 1 →
      (Player.take_damage amount p).1.health = 0 ∧
      (Player.take_damage amount p).1.lives = p.lives - 1 ∧
      (Player.take_damage amount p).1.kill_streak = p.kill_streak ∧
      (Player.take_damage amount p).1.invincible = false ∧
      (Player.take_damage amount p).1.invincibility_timer =
        p.invincibility_timer) := by
  unfold Player.take_damage
  rw [hI]
  simp only [Bool.false_eq_true, if_false]
  by_cases h1 : p.health - amount ≤ 0
  · have h1' : p.health ≤ amount := by linarith
    by_cases h2 : (0 : ℤ) < p.lives - 1
    · have h2' : ¬p.lives ≤ 1 := by omega
      simp [h1, h1', h2, h2']
    · have h2' : p.lives ≤ 1 := by omega
      simp [h1, h1', h2, h2']
  · have h1' : ¬p.health ≤ amount := fun h => h1 (by linarith)
    simp [h1, h1']

/-- **C1 (witness).**  The characterisation applied to a concrete
non-invincible player taking 1 damage. -/
theorem C1_take_damage_witness :
    ({ lives := 3, health := 3, max_lives := 3, max_health := 3,
       invincible := false, invincibility_timer := 0,
       damage_flash_timer := 0, time_since_damage := 9,
       kill_streak := 4 } : PlayerState).invincible = false ∧
    (0 : ℚ) < 1 ∧
    (Player.take_damage 1
        { lives := 3, health := 3, max_lives := 3, max_health := 3,
          invincible := false, invincibility_timer := 0,
          damage_flash_timer := 0, time_since_damage := 9,
          kill_streak := 4 }).1.time_since_damage = 0 :=
  ⟨rfl, by norm_num,
    (C1_take_damage_characterisation _ 1 rfl (by norm_num)).1⟩

/-- **C2.**  `is_wave_complete` is true iff the kill quota is reached
and, on a boss wave (`current_wave % BOSS_WAVE_INTERVAL == 0`), the boss
has been killed; in particular, reaching the quota on a boss wave with
`boss_killed` still false leaves it false. -/
theorem C2_is_wave_complete_iff (s : SpawnState) :
    (SpawnManager.is_wave_complete s = true ↔
      (s.max_kills_this_wave ≤ s.enemies_killed_this_wave ∧
        (s.current_wave % BOSS_WAVE_INTERVAL = 0 → s.boss_killed = true))) ∧
    (s.current_wave % BOSS_WAVE_INTERVAL = 0 → s.boss_killed = false →
      s.max_kills_this_wave ≤ s.enemies_killed_this_wave →
      SpawnManager.is_wave_complete s = false) := by
  unfold SpawnManager.is_wave_complete SpawnManager.is_boss_wave
  by_cases h : s.current_wave % BOSS_WAVE_INTERVAL = 0 <;>
    simp [h] <;> intro h' <;> simp [h']

/-- **C2 (witness).**  The completion predicate evaluated on a concrete
boss-wave state with the quota met but the boss alive. -/
theorem C2_is_wave_complete_witness :
    (SpawnManager.is_wave_complete
        { current_wave := 5, enemies_spawned_this_wave := 9,
          max_kills_this_wave := 9, enemies_killed_this_wave := 9,
          spawn_timer := 0, spawn_interval := 2, max_alive := 10,
          boss_spawned := true, boss_killed := false, boss_level := 1,
          difficulty_tier := 0, bullet_speed_multiplier := 1,
          fire_rate_multiplier := 1 } : Bool) = false :=
  (C2_is_wave_complete_iff _).2 (by decide) rfl (by decide)

/-- **C3.**  Along any finite sequence of `update`, `advance_wave` and
`register_enemy_killed` calls from a fresh `SpawnManager` — and
`is_wave_complete` / `check_all_collisions` calls, which do not modify
the spawn state at all — `boss_killed` stays `false`:
`register_boss_killed` is the only operation that sets it, and the
collision-resolution path never invokes it. -/
theorem C3_boss_killed_false_without_register (bss frs : ℚ) (s : SpawnState)
    (h : SpawnReachable bss frs s) : s.boss_killed = false := by
  induction h with
  | init ma => rfl
  | update dt alive eb _ ih => rw [SpawnManager.update_boss_killed]; exact ih
  | advance _ _ => exact SpawnManager.advance_wave_boss_killed _ _ _
  | kill _ ih => exact ih

/-- **C3 (witness).**  A concrete reachable state (one wave advance, one
spawner tick, one registered kill) with `boss_killed = false`. -/
theorem C3_boss_killed_witness :
    (SpawnManager.register_enemy_killed
      (SpawnManager.update 1 0 false
        (SpawnManager.advance_wave (12 / 10) (9 / 10)
          (SpawnManager.init 10)))).boss_killed = false :=
  C3_boss_killed_false_without_register (12 / 10) (9 / 10) _
    (SpawnReachable.kill (SpawnReachable.update 1 0 false
      (SpawnReachable.advance (SpawnReachable.init 10))))

/-- `ZigzagEnemy.update` does not read the player position. -/
theorem ZigzagEnemy.update_player_pos_irrelevant (mcos : ℚ → ℚ) (dt : ℚ)
    (p q : ℚ × ℚ) (z : ZigzagState) :
    ZigzagEnemy.update mcos dt p z = ZigzagEnemy.update mcos dt q z := rfl

/-- **C10.**  For every tick count `N`, every sequence of per-tick `dt`
values and any two sequences of player positions, a `ZigzagEnemy`
produces identical x-velocity and x-position trajectories (indeed, the
whole state after `N` ticks is identical): its update ignores the player
position argument. -/
theorem C10_zigzag_independent_of_player (mcos : ℚ → ℚ) (dts : ℕ → ℚ)
    (ps qs : ℕ → ℚ × ℚ) (z : ZigzagState) (N : ℕ) :
    (ZigzagEnemy.runTicks mcos dts ps N z).velocity.1 =
      (ZigzagEnemy.runTicks mcos dts qs N z).velocity.1 ∧
    (ZigzagEnemy.runTicks mcos dts ps N z).position.1 =
      (ZigzagEnemy.runTicks mcos dts qs N z).position.1 ∧
    ZigzagEnemy.runTicks mcos dts ps N z =
      ZigzagEnemy.runTicks mcos dts qs N z := by
  have key : ∀ n, ZigzagEnemy.runTicks mcos dts ps n z =
      ZigzagEnemy.runTicks mcos dts qs n z := by
    intro n
    induction n with
    | zero => rfl
    | succ m ih =>
        show ZigzagEnemy.update mcos (dts m) (ps m) _ =
          ZigzagEnemy.update mcos (dts m) (qs m) _
        rw [ih]
        exact ZigzagEnemy.update_player_pos_irrelevant mcos (dts m) (ps m) (qs m) _
  exact ⟨by rw [key], by rw [key], key N⟩

/-- `tierScales` as a proposition. -/
theorem tierScales_iff (w : ℕ) :
    tierScales w = true ↔
      (w % DIFFICULTY_SCALE_INTERVAL = 0 ∧ ¬w % BOSS_WAVE_INTERVAL = 0) := by
  simp [tierScales]

/-- `advance_wave` written as a single case split on the
difficulty-scaling condition. -/
theorem SpawnManager.advance_wave_eq (bss frs : ℚ) (s : SpawnState) :
    SpawnManager.advance_wave bss frs s =
      if tierScales (s.current_wave + 1) then
        { s with
          current_wave := s.current_wave + 1
          enemies_killed_this_wave := 0
          boss_spawned := false
          boss_killed := false
          max_kills_this_wave :=
            ENEMIES_PER_WAVE_BASE + s.current_wave * ENEMIES_PER_WAVE_INCREMENT
          difficulty_tier := s.difficulty_tier + 1
          bullet_speed_multiplier := s.bullet_speed_multiplier * bss
          fire_rate_multiplier := s.fire_rate_multiplier * frs
          spawn_interval :=
            max (1 / 2)
              (ENEMY_SPAWN_RATE_BASE / WAVE_DIFFICULTY_MULTIPLIER ^ s.current_wave)
          enemies_spawned_this_wave := 0
          spawn_timer := 0 }
      else
        { s with
          current_wave := s.current_wave + 1
          enemies_killed_this_wave := 0
          boss_spawned := false
          boss_killed := false
          max_kills_this_wave :=
            ENEMIES_PER_WAVE_BASE + s.current_wave * ENEMIES_PER_WAVE_INCREMENT
          spawn_interval :=
            max (1 / 2)
              (ENEMY_SPAWN_RATE_BASE / WAVE_DIFFICULTY_MULTIPLIER ^ s.current_wave)
          enemies_spawned_this_wave := 0
          spawn_timer := 0 } := by
  simp only [SpawnManager.advance_wave, SpawnManager.is_boss_wave, tierScales]
  by_cases h1 : (s.current_wave + 1) % DIFFICULTY_SCALE_INTERVAL = 0
  · by_cases h2 : (s.current_wave + 1) % BOSS_WAVE_INTERVAL = 0
    · simp [h1, h2]
    · simp [h1, h2]
  · simp [h1]

/-- Invariant of the wave sequence: after `n` calls to `advance_wave`
from a fresh manager, the wave number, difficulty tier, both compounding
multipliers, the kill quota and the clamped spawn interval all follow
their closed forms. -/
theorem SpawnManager.advanceIter_spec (bss frs : ℚ) (ma n : ℕ) :
    (SpawnManager.advanceIter bss frs ma n).current_wave = n + 1 ∧
    (SpawnManager.advanceIter bss frs ma n).difficulty_tier = tierCount n ∧
    (SpawnManager.advanceIter bss frs ma n).bullet_speed_multiplier =
      bss ^ tierCount n ∧
    (SpawnManager.advanceIter bss frs ma n).fire_rate_multiplier =
      frs ^ tierCount n ∧
    (SpawnManager.advanceIter bss frs ma n).max_kills_this_wave =
      ENEMIES_PER_WAVE_BASE + n * ENEMIES_PER_WAVE_INCREMENT ∧
    (SpawnManager.advanceIter bss frs ma n).spawn_interval =
      max (1 / 2) (ENEMY_SPAWN_RATE_BASE / WAVE_DIFFICULTY_MULTIPLIER ^ n) := by
  induction n with
  | zero =>
      refine ⟨rfl, rfl,
        by simp [SpawnManager.advanceIter, SpawnManager.init, tierCount],
        by simp [SpawnManager.advanceIter, SpawnManager.init, tierCount],
        rfl, ?_⟩
      show ENEMY_SPAWN_RATE_BASE = _
      rw [pow_zero, div_one, max_eq_right]
      norm_num [ENEMY_SPAWN_RATE_BASE]
  | succ m ih =>
      obtain ⟨hw, ht, hb, hf, hk, _⟩ := ih
      have hstep : SpawnManager.advanceIter bss frs ma (m + 1) =
          SpawnManager.advance_wave bss frs (SpawnManager.advanceIter bss frs ma m) :=
        rfl
      rw [hstep, SpawnManager.advance_wave_eq, hw,
        show m + 1 + 1 = m + 2 from rfl]
      have htc : tierCount (m + 1) =
          tierCount m + if tierScales (m + 2) then 1 else 0 := rfl
      by_cases hc : tierScales (m + 2)
      · rw [if_pos hc]
        exact ⟨rfl, by simp [htc, ht, hc], by simp [htc, hb, hc, pow_succ],
          by simp [htc, hf, hc, pow_succ], rfl, rfl⟩
      · rw [if_neg hc]
        exact ⟨rfl, by simp [htc, ht, hc], by simp [htc, hb, hc],
          by simp [htc, hf, hc], rfl, rfl⟩

/-- **C4.**  Along the `advance_wave` sequence from a fresh manager:
the difficulty tier after `n` advances counts exactly the waves
`w ∈ {2, …, n+1}` with `w % DIFFICULTY_SCALE_INTERVAL == 0` that are not
boss waves (`tierCount`), and the advance that reaches wave `n + 2`
raises the tier by exactly 1 iff that wave satisfies the same condition;
after `k = tierCount n` scaling events the multipliers equal
`bss ^ k` and `frs ^ k` (compounding, never reset); and each advance
recomputes `max_kills_this_wave = base + (wave − 1) * increment` and
`spawn_interval = base_interval / multiplier ^ (wave − 1)` clamped to
the floor 0.5. -/
theorem C4_difficulty_progression (bss frs : ℚ) (ma n : ℕ) :
    (SpawnManager.advanceIter bss frs ma n).current_wave = n + 1 ∧
    (SpawnManager.advanceIter bss frs ma n).difficulty_tier = tierCount n ∧
    (SpawnManager.advanceIter bss frs ma (n + 1)).difficulty_tier =
      (SpawnManager.advanceIter bss frs ma n).difficulty_tier +
        (if (n + 2) % DIFFICULTY_SCALE_INTERVAL = 0 ∧
            ¬(n + 2) % BOSS_WAVE_INTERVAL = 0 then 1 else 0) ∧
    (SpawnManager.advanceIter bss frs ma n).bullet_speed_multiplier =
      bss ^ tierCount n ∧
    (SpawnManager.advanceIter bss frs ma n).fire_rate_multiplier =
      frs ^ tierCount n ∧
    (SpawnManager.advanceIter bss frs ma n).max_kills_this_wave =
      ENEMIES_PER_WAVE_BASE + (n + 1 - 1) * ENEMIES_PER_WAVE_INCREMENT ∧
    (SpawnManager.advanceIter bss frs ma n).spawn_interval =
      max (1 / 2)
        (ENEMY_SPAWN_RATE_BASE / WAVE_DIFFICULTY_MULTIPLIER ^ (n + 1 - 1)) := by
  obtain ⟨hw, ht, hb, hf, hk, hs⟩ := SpawnManager.advanceIter_spec bss frs ma n
  obtain ⟨_, ht', _, _, _, _⟩ := SpawnManager.advanceIter_spec bss frs ma (n + 1)
  refine ⟨hw, ht, ?_, hb, hf, by simpa using hk, by simpa using hs⟩
  rw [ht, ht']
  show tierCount (n + 1) = tierCount n + _
  have htc : tierCount (n + 1) =
      tierCount n + if tierScales (n + 2) then 1 else 0 := rfl
  by_cases hc : (n + 2) % DIFFICULTY_SCALE_INTERVAL = 0 ∧
      ¬(n + 2) % BOSS_WAVE_INTERVAL = 0
  · rw [htc, if_pos ((tierScales_iff (n + 2)).mpr hc), if_pos hc]
  · rw [htc, if_neg (fun h => hc ((tierScales_iff (n + 2)).mp h)), if_neg hc]

/-- `tierCount` is monotone: later waves have seen at least as many
scaling events. -/
theorem tierCount_mono {m n : ℕ} (h : m ≤ n) : tierCount m ≤ tierCount n := by
  induction h with
  | refl => exact le_rfl
  | step _ ih => exact le_trans ih (Nat.le_add_right _ _)

/-- `SpawnManager._spawn_enemy` instantiating a `BasicEnemy` with the
engine's current multipliers, after `n` wave advances. -/
def spawnedBasicEnemy (bss frs : ℚ) (ma n : ℕ) : EnemyState :=
  BasicEnemy.init
    (SpawnManager.advanceIter bss frs ma n).bullet_speed_multiplier
    (SpawnManager.advanceIter bss frs ma n).fire_rate_multiplier

/-- **C5 (counterexample).**  With the spec-modelled scale constants
(`ENEMY_FIRE_RATE_SCALE < 1`, as required by spec §4.3 and asserted by
the repository's tests), a basic enemy spawned after the wave-6 scaling
event carries `fire_rate_multiplier = 0.9`, which is not `≥ 1.0`: the
claim's "multipliers are floats >= 1.0" fails for the fire-rate
multiplier. -/
theorem C5_fire_rate_multiplier_not_ge_one :
    (spawnedBasicEnemy ENEMY_BULLET_SPEED_SCALE ENEMY_FIRE_RATE_SCALE
        10 6).fire_rate_multiplier = 9 / 10 ∧
    ¬(1 : ℚ) ≤ 9 / 10 := by
  constructor
  · show (SpawnManager.advanceIter ENEMY_BULLET_SPEED_SCALE
        ENEMY_FIRE_RATE_SCALE 10 6).fire_rate_multiplier = 9 / 10
    rw [(SpawnManager.advanceIter_spec ENEMY_BULLET_SPEED_SCALE
        ENEMY_FIRE_RATE_SCALE 10 6).2.2.2.1,
      show tierCount 6 = 1 from by decide, pow_one]
    rfl
  · norm_num

/-- **C5 (amended).**  For every spawned non-boss enemy (here the basic
enemy built with the engine's current multipliers): provided the bullet
speed scale is `≥ 1` and the fire rate scale is in `(0, 1]` — the spec's
§4.3 reading — the enemy's `bullet_speed_multiplier` is `≥ 1` while its
`fire_rate_multiplier` is in `(0, 1]` (not `≥ 1`); rising difficulty
(`m ≤ n` advances) weakly lowers the effective cooldown
`2.0 * fire_rate_multiplier` and weakly raises the bullet speed
`ENEMY_BULLET_SPEED * bullet_speed_multiplier`; and a successful shot
resets the cooldown to `base_cooldown * fire_rate_multiplier` with
`base_cooldown = 2.0`. -/
theorem C5_difficulty_multipliers (bss frs : ℚ) (hb : 1 ≤ bss)
    (hf0 : 0 < frs) (hf1 : frs ≤ 1) (ma m n : ℕ) (hmn : m ≤ n)
    (r cx bottom : ℚ) (hr : r < BASIC_ENEMY_SHOOT_CHANCE) :
    1 ≤ (spawnedBasicEnemy bss frs ma n).bullet_speed_multiplier ∧
    0 < (spawnedBasicEnemy bss frs ma n).fire_rate_multiplier ∧
    (spawnedBasicEnemy bss frs ma n).fire_rate_multiplier ≤ 1 ∧
    2 * (spawnedBasicEnemy bss frs ma n).fire_rate_multiplier ≤
      2 * (spawnedBasicEnemy bss frs ma m).fire_rate_multiplier ∧
    ENEMY_BULLET_SPEED * (spawnedBasicEnemy bss frs ma m).bullet_speed_multiplier ≤
      ENEMY_BULLET_SPEED * (spawnedBasicEnemy bss frs ma n).bullet_speed_multiplier ∧
    (Enemy.should_shoot r (spawnedBasicEnemy bss frs ma n)).2 = true ∧
    (Enemy.should_shoot r (spawnedBasicEnemy bss frs ma n)).1.shoot_timer =
      2 * (spawnedBasicEnemy bss frs ma n).fire_rate_multiplier ∧
    (Enemy.create_bullet cx bottom (spawnedBasicEnemy bss frs ma n)).vel.2 =
      ENEMY_BULLET_SPEED * (spawnedBasicEnemy bss frs ma n).bullet_speed_multiplier := by
  have hbn := (SpawnManager.advanceIter_spec bss frs ma n).2.2.1
  have hfn := (SpawnManager.advanceIter_spec bss frs ma n).2.2.2.1
  have hbm := (SpawnManager.advanceIter_spec bss frs ma m).2.2.1
  have hfm := (SpawnManager.advanceIter_spec bss frs ma m).2.2.2.1
  have hebsm : (spawnedBasicEnemy bss frs ma n).bullet_speed_multiplier =
      bss ^ tierCount n := hbn
  have hefrm : (spawnedBasicEnemy bss frs ma n).fire_rate_multiplier =
      frs ^ tierCount n := hfn
  have hebsm' : (spawnedBasicEnemy bss frs ma m).bullet_speed_multiplier =
      bss ^ tierCount m := hbm
  have hefrm' : (spawnedBasicEnemy bss frs ma m).fire_rate_multiplier =
      frs ^ tierCount m := hfm
  have htc := tierCount_mono hmn
  refine ⟨?_, ?_, ?_, ?_, ?_, ?_, ?_, rfl⟩
  · rw [hebsm]; exact one_le_pow₀ hb
  · rw [hefrm]; exact pow_pos hf0 _
  · rw [hefrm]; exact pow_le_one₀ hf0.le hf1
  · rw [hefrm, hefrm']
    have := pow_le_pow_of_le_one hf0.le hf1 htc
    linarith
  · rw [hebsm, hebsm']
    have := pow_le_pow_right₀ hb htc
    have h4 : (0 : ℚ) ≤ ENEMY_BULLET_SPEED := by norm_num [ENEMY_BULLET_SPEED]
    exact mul_le_mul_of_nonneg_left this h4
  · simp [Enemy.should_shoot, spawnedBasicEnemy, BasicEnemy.init, hr]
  · simp [Enemy.should_shoot, spawnedBasicEnemy, BasicEnemy.init, hr]

/-- **C5 (witness).**  The amended statement applied to the
spec-modelled scale constants, 0 then 6 advances, and a successful
random draw. -/
theorem C5_difficulty_multipliers_witness :
    (1 : ℚ) ≤ 12 / 10 ∧ (0 : ℚ) < 9 / 10 ∧ (9 / 10 : ℚ) ≤ 1 ∧
    (0 : ℕ) ≤ 6 ∧ (1 / 100 : ℚ) < BASIC_ENEMY_SHOOT_CHANCE ∧
    1 ≤ (spawnedBasicEnemy (12 / 10) (9 / 10) 10 6).bullet_speed_multiplier :=
  ⟨by norm_num, by norm_num, by norm_num, by norm_num,
    by norm_num [BASIC_ENEMY_SHOOT_CHANCE],
    (C5_difficulty_multipliers (12 / 10) (9 / 10) (by norm_num) (by norm_num)
      (by norm_num) 10 0 6 (by norm_num) (1 / 100) 0 0
      (by norm_num [BASIC_ENEMY_SHOOT_CHANCE])).1⟩

/-- **C6 (counterexample).**  One player bullet (damage 1) kills a
chaser-valued enemy (health 1, `score_value = 25`) while the player's
kill streak is at the threshold 5: the awarded points are
`int(25 * 1.5) = 37`, which is *not* equal to
`score_value * STREAK_BONUS_MULTIPLIER = 37.5` — the product is
truncated by `int()`. -/
theorem C6_streak_bonus_points_truncated :
    (CollisionManager.check_player_bullet_enemy_collisions (fun _ _ => true)
        [{ pos := (0, 0), vel := (0, -8), owner := Owner.player, damage := 1 }]
        [{ health := 1, max_health := 1, speed := 2,
           score_value := CHASER_ENEMY_POINTS, can_shoot := true,
           shoot_timer := 0, bullet_speed_multiplier := 1,
           fire_rate_multiplier := 1, damage_flash_timer := 0 }] 5).1 = 37 ∧
    ((37 : ℚ) ≠ (CHASER_ENEMY_POINTS : ℚ) * STREAK_BONUS_MULTIPLIER) := by
  have hpy : pyInt ((25 : ℚ) * STREAK_BONUS_MULTIPLIER) = 37 :=
    pyInt_eq_of_bounds (by norm_num [STREAK_BONUS_MULTIPLIER])
      (by norm_num [STREAK_BONUS_MULTIPLIER])
      (by norm_num [STREAK_BONUS_MULTIPLIER])
  constructor
  · simp only [CollisionManager.check_player_bullet_enemy_collisions,
      CollisionManager.hitEnemy, Enemy.take_damage, List.enum, List.enumFrom,
      List.filter, List.filterMap, List.foldl, List.map, CHASER_ENEMY_POINTS,
      STREAK_BONUS_THRESHOLD]
    norm_num [hpy, CHASER_ENEMY_POINTS]
  · norm_num [CHASER_ENEMY_POINTS, STREAK_BONUS_MULTIPLIER]

/-- **C6 (amended).**  For a colliding player-bullet/enemy pair, with
the enemy at index `i` of the group: the bullet's damage is subtracted
from the enemy's health; if the health drops to `≤ 0` the enemy is
removed and the awarded points are `score_value` — or, when the player's
kill streak at the moment of the kill is `≥ STREAK_BONUS_THRESHOLD`, the
`int()`-truncation of `score_value * STREAK_BONUS_MULTIPLIER` — and the
streak is incremented exactly once; otherwise the enemy survives
(damage-flashing) and points, streak and removal state are left alone.
Moreover a bullet survives the `groupcollide` pass iff it collides with
no enemy. -/
theorem C6_pair_processing (dmg pts : ℤ) (streak : ℕ)
    (em : List (EnemyState × Bool)) (i : ℕ) (e : EnemyState) (rem : Bool)
    (hget : em.get? i = some (e, rem))
    (collides : BulletState → EnemyState → Bool)
    (player_bullets : List BulletState) (enemies : List EnemyState)
    (b : BulletState) :
    (e.health - dmg ≤ 0 →
      (CollisionManager.hitEnemy dmg pts streak em i).2.2.get? i =
        some ({ e with health := e.health - dmg }, true) ∧
      (CollisionManager.hitEnemy dmg pts streak em i).2.1 = streak + 1 ∧
      (CollisionManager.hitEnemy dmg pts streak em i).1 =
        pts + (if STREAK_BONUS_THRESHOLD ≤ streak
          then pyInt ((e.score_value : ℚ) * STREAK_BONUS_MULTIPLIER)
          else e.score_value)) ∧
    (0 < e.health - dmg →
      (CollisionManager.hitEnemy dmg pts streak em i).2.2.get? i =
        some ({ e with health := e.health - dmg,
                       damage_flash_timer := DAMAGE_FLASH_DURATION }, rem) ∧
      (CollisionManager.hitEnemy dmg pts streak em i).2.1 = streak ∧
      (CollisionManager.hitEnemy dmg pts streak em i).1 = pts) ∧
    (b ∈ (CollisionManager.check_player_bullet_enemy_collisions collides
        player_bullets enemies streak).2.2.1 ↔
      (b ∈ player_bullets ∧ ∀ e' ∈ enemies, ¬collides b e' = true)) := by
  have hlt : i < em.length := by
    by_contra hnlt
    rw [List.get?_eq_none.mpr (le_of_not_lt hnlt)] at hget
    exact Option.noConfusion hget
  refine ⟨?_, ?_, ?_⟩
  · intro hle
    have hnot : ¬(0 : ℤ) < e.health - dmg := not_lt.mpr hle
    simp only [CollisionManager.hitEnemy, hget, Enemy.take_damage]
    simp [hnot, hle]
    refine ⟨List.getElem?_set_eq_of_lt _ hlt, ?_⟩
    split_ifs <;> rfl
  · intro hlt0
    have hnle : ¬e.health - dmg ≤ 0 := not_le.mpr hlt0
    simp only [CollisionManager.hitEnemy, hget, Enemy.take_damage]
    simp [hlt0, hnle]
    exact List.getElem?_set_eq_of_lt _ hlt
  · simp only [CollisionManager.check_player_bullet_enemy_collisions]
    simp [List.mem_filter]

/-- A concrete one-health enemy used by the C6 witness. -/
def C6_wit_enemy : EnemyState :=
  { health := 1, max_health := 1, speed := 2, score_value := 10,
    can_shoot := true, shoot_timer := 0, bullet_speed_multiplier := 1,
    fire_rate_multiplier := 1, damage_flash_timer := 0 }

/-- **C6 (witness).**  The pair characterisation applied to a concrete
one-enemy group: a damage-1 hit on a one-health enemy increments the
streak by exactly one. -/
theorem C6_pair_processing_witness :
    ([(C6_wit_enemy, false)].get? 0 = some (C6_wit_enemy, false)) ∧
    C6_wit_enemy.health - 1 ≤ 0 ∧
    (CollisionManager.hitEnemy 1 0 2 [(C6_wit_enemy, false)] 0).2.1 = 2 + 1 :=
  ⟨rfl, by norm_num [C6_wit_enemy],
    ((C6_pair_processing 1 0 2 [(C6_wit_enemy, false)] 0 C6_wit_enemy false
        rfl (fun _ _ => true) [] [] ⟨(0, 0), (0, 0), Owner.player, 1⟩).1
      (by norm_num [C6_wit_enemy])).2.1⟩

/-- **C7 (counterexample).**  The constructor truncates the health
formula through `int()`: with base health 50 and multiplier 1.5, the
level-3 boss has `health = int(50 * 1.5²) = int(112.5) = 112`, which is
not equal to `base_health * health_multiplier^(n−1) = 112.5`. -/
theorem C7_boss_health_truncated :
    (BossEnemy.init
        { BOSS_BASE_HEALTH := 50, BOSS_HEALTH_MULTIPLIER := 3 / 2,
          BOSS_POINTS := 500, BOSS_BASE_FIRE_RATE := 2,
          BOSS_FIRE_RATE_DECREASE := 9 / 10,
          BOSS_BULLET_SPEED_MULTIPLIER := 11 / 10 } 0 0 3).health = 112 ∧
    ((112 : ℚ) ≠ (50 : ℚ) * (3 / 2) ^ (3 - 1 : ℕ)) := by
  constructor
  · show pyInt ((50 : ℤ) * ((3 : ℚ) / 2) ^ (3 - 1 : ℕ)) = 112
    exact pyInt_eq_of_bounds (by norm_num) (by norm_num) (by norm_num)
  · norm_num

/-- **C7 (amended).**  For every boss level `n ≥ 1` (constants kept
abstract, with the spec-implied side conditions `base_health ≥ 0`,
`health_multiplier ≥ 1` and `base_health * (health_multiplier − 1) ≥ 1`):
the constructed boss's health is the `int()`-truncation of
`base_health * health_multiplier^(n−1)` — equal to the exact product
whenever that product is an integer, and within 1 below it otherwise —
and is strictly increasing in `n`; `fire_rate` equals
`base_fire_rate * fire_rate_decrease^(n−1)`; `bullet_speed_multiplier`
equals `bullet_speed_multiplier_base^(n−1)`; and `score_value` equals
`base_points * n` exactly. -/
theorem C7_boss_level_stats (c : BossCfg) (cx bottom : ℚ) (n : ℕ)
    (hn : 1 ≤ n) (hb0 : 0 ≤ (c.BOSS_BASE_HEALTH : ℚ))
    (hm1 : 1 ≤ c.BOSS_HEALTH_MULTIPLIER)
    (hgap : 1 ≤ (c.BOSS_BASE_HEALTH : ℚ) * (c.BOSS_HEALTH_MULTIPLIER - 1)) :
    (((BossEnemy.init c cx bottom n).health : ℚ) ≤
      (c.BOSS_BASE_HEALTH : ℚ) * c.BOSS_HEALTH_MULTIPLIER ^ (n - 1)) ∧
    ((c.BOSS_BASE_HEALTH : ℚ) * c.BOSS_HEALTH_MULTIPLIER ^ (n - 1) <
      (BossEnemy.init c cx bottom n).health + 1) ∧
    ((BossEnemy.init c cx bottom n).health <
      (BossEnemy.init c cx bottom (n + 1)).health) ∧
    ((BossEnemy.init c cx bottom n).fire_rate =
      c.BOSS_BASE_FIRE_RATE * c.BOSS_FIRE_RATE_DECREASE ^ (n - 1)) ∧
    ((BossEnemy.init c cx bottom n).bullet_speed_multiplier =
      c.BOSS_BULLET_SPEED_MULTIPLIER ^ (n - 1)) ∧
    ((BossEnemy.init c cx bottom n).score_value = c.BOSS_POINTS * (n : ℤ)) := by
  have hm0 : (0 : ℚ) ≤ c.BOSS_HEALTH_MULTIPLIER := le_trans zero_le_one hm1
  have hxpos : ∀ k : ℕ, (0 : ℚ) ≤
      (c.BOSS_BASE_HEALTH : ℚ) * c.BOSS_HEALTH_MULTIPLIER ^ k :=
    fun k => mul_nonneg hb0 (pow_nonneg hm0 k)
  have hfloor : ∀ k : ℕ, (BossEnemy.init c cx bottom (k + 1)).health =
      ⌊(c.BOSS_BASE_HEALTH : ℚ) * c.BOSS_HEALTH_MULTIPLIER ^ k⌋ := by
    intro k
    show pyInt _ = _
    rw [pyInt_of_nonneg (hxpos _)]
    norm_num
  obtain ⟨m, rfl⟩ : ∃ m, n = m + 1 := ⟨n - 1, (Nat.succ_pred_eq_of_pos hn).symm⟩
  have hsub : m + 1 - 1 = m := rfl
  refine ⟨?_, ?_, ?_, rfl, rfl, rfl⟩
  · rw [hfloor m, hsub]
    exact_mod_cast Int.floor_le _
  · rw [hfloor m, hsub]
    exact Int.lt_floor_add_one _
  · rw [hfloor m, hfloor (m + 1)]
    have hpow : (1 : ℚ) ≤ c.BOSS_HEALTH_MULTIPLIER ^ m := one_le_pow₀ hm1
    have hstep : (c.BOSS_BASE_HEALTH : ℚ) * c.BOSS_HEALTH_MULTIPLIER ^ m + 1 ≤
        (c.BOSS_BASE_HEALTH : ℚ) * c.BOSS_HEALTH_MULTIPLIER ^ (m + 1) := by
      have hgap' : 1 ≤ (c.BOSS_BASE_HEALTH : ℚ) *
          (c.BOSS_HEALTH_MULTIPLIER - 1) * c.BOSS_HEALTH_MULTIPLIER ^ m :=
        le_trans hgap (le_mul_of_one_le_right (le_trans zero_le_one hgap) hpow)
      have hexp : (c.BOSS_BASE_HEALTH : ℚ) * c.BOSS_HEALTH_MULTIPLIER ^ (m + 1) -
          (c.BOSS_BASE_HEALTH : ℚ) * c.BOSS_HEALTH_MULTIPLIER ^ m =
          (c.BOSS_BASE_HEALTH : ℚ) * (c.BOSS_HEALTH_MULTIPLIER - 1) *
            c.BOSS_HEALTH_MULTIPLIER ^ m := by ring
      linarith
    calc ⌊(c.BOSS_BASE_HEALTH : ℚ) * c.BOSS_HEALTH_MULTIPLIER ^ m⌋ <
          ⌊(c.BOSS_BASE_HEALTH : ℚ) * c.BOSS_HEALTH_MULTIPLIER ^ m⌋ + 1 :=
        lt_add_one _
      _ = ⌊(c.BOSS_BASE_HEALTH : ℚ) * c.BOSS_HEALTH_MULTIPLIER ^ m + 1⌋ :=
        (Int.floor_add_one _).symm
      _ ≤ ⌊(c.BOSS_BASE_HEALTH : ℚ) * c.BOSS_HEALTH_MULTIPLIER ^ (m + 1)⌋ :=
        Int.floor_le_floor hstep

/-- **C7 (witness).**  The amended statement instantiated at level 1
with concrete constants (base health 50, multiplier 1.5): the level-1
health is below the closed form, which is below health + 1. -/
theorem C7_boss_level_stats_witness :
    (1 : ℕ) ≤ 1 ∧ (0 : ℚ) ≤ ((50 : ℤ) : ℚ) ∧ (1 : ℚ) ≤ 3 / 2 ∧
    (1 : ℚ) ≤ ((50 : ℤ) : ℚ) * (3 / 2 - 1) ∧
    (((BossEnemy.init
        { BOSS_BASE_HEALTH := 50, BOSS_HEALTH_MULTIPLIER := 3 / 2,
          BOSS_POINTS := 500, BOSS_BASE_FIRE_RATE := 2,
          BOSS_FIRE_RATE_DECREASE := 9 / 10,
          BOSS_BULLET_SPEED_MULTIPLIER := 11 / 10 } 0 0 1).health : ℚ) ≤
      ((50 : ℤ) : ℚ) * (3 / 2) ^ (1 - 1 : ℕ)) :=
  ⟨le_rfl, by norm_num, by norm_num, by norm_num,
    (C7_boss_level_stats
      { BOSS_BASE_HEALTH := 50, BOSS_HEALTH_MULTIPLIER := 3 / 2,
        BOSS_POINTS := 500, BOSS_BASE_FIRE_RATE := 2,
        BOSS_FIRE_RATE_DECREASE := 9 / 10,
        BOSS_BULLET_SPEED_MULTIPLIER := 11 / 10 } 0 0 1 le_rfl
      (by norm_num) (by norm_num) (by norm_num)).1⟩

/-- Distinctness of two fan bullets' velocity vectors reduces to the
distinctness of the sine values, since the common speed is nonzero. -/
theorem penta_vel_ne {s x y : ℚ} (hs : 0 < s) (hne : x ≠ y) :
    ((x * s, s) : ℚ × ℚ) ≠ (y * s, s) := by
  intro h
  exact hne (mul_right_cancel₀ (ne_of_gt hs) (congrArg Prod.fst h))

/-- **C8.**  For a boss of any level `n` (with a positive bullet-speed
base and `math.sin` injective on the five distinct fan angles, which
holds for the real sine since they all lie in `[−π/2, π/2]`):
`create_penta_shot` returns exactly 5 bullets, their five velocity
vectors are pairwise distinct, every bullet is owned by `"enemy"`, and
every bullet's speed is scaled by the level-derived multiplier
`BOSS_BULLET_SPEED_MULTIPLIER^(n−1)`, its x-velocity being `sin(angle)`
times that speed for one of the five fan angles. -/
theorem C8_penta_shot (msin : ℚ → ℚ) (c : BossCfg) (cx bottom : ℚ) (n : ℕ)
    (hinj : (PENTA_ANGLES.map msin).Pairwise (· ≠ ·))
    (hpos : 0 < c.BOSS_BULLET_SPEED_MULTIPLIER) :
    ((BossEnemy.create_penta_shot msin (BossEnemy.init c cx bottom n)).length
      = 5) ∧
    (((BossEnemy.create_penta_shot msin (BossEnemy.init c cx bottom n)).map
        (fun b => b.vel)).Pairwise (· ≠ ·)) ∧
    (∀ b ∈ BossEnemy.create_penta_shot msin (BossEnemy.init c cx bottom n),
      b.owner = Owner.enemy ∧
      b.vel.2 = ENEMY_BULLET_SPEED * c.BOSS_BULLET_SPEED_MULTIPLIER ^ (n - 1) ∧
      ∃ a ∈ PENTA_ANGLES, b.vel.1 =
        msin a * (ENEMY_BULLET_SPEED * c.BOSS_BULLET_SPEED_MULTIPLIER ^ (n - 1))) := by
  have hs : (0 : ℚ) <
      ENEMY_BULLET_SPEED * c.BOSS_BULLET_SPEED_MULTIPLIER ^ (n - 1) :=
    mul_pos (by norm_num [ENEMY_BULLET_SPEED]) (pow_pos hpos _)
  refine ⟨rfl, ?_, ?_⟩
  · have hmm : ((BossEnemy.create_penta_shot msin
          (BossEnemy.init c cx bottom n)).map (fun b => b.vel)) =
        (PENTA_ANGLES.map msin).map
          (fun x => ((x * (ENEMY_BULLET_SPEED *
              c.BOSS_BULLET_SPEED_MULTIPLIER ^ (n - 1)),
            ENEMY_BULLET_SPEED *
              c.BOSS_BULLET_SPEED_MULTIPLIER ^ (n - 1)) : ℚ × ℚ)) := rfl
    rw [hmm]
    exact List.Pairwise.map _ (fun a b hab => penta_vel_ne hs hab) hinj
  · intro b hb
    simp only [BossEnemy.create_penta_shot, PENTA_ANGLES, List.map,
      List.mem_cons, List.not_mem_nil, or_false] at hb
    rcases hb with rfl | rfl | rfl | rfl | rfl <;>
      exact ⟨rfl, rfl, ⟨_, by simp [PENTA_ANGLES], rfl⟩⟩

/-- **C8 (witness).**  The penta-shot property applied with `msin` the
identity function (injective on the five pairwise-distinct angles) and a
concrete level-2 boss configuration. -/
theorem C8_penta_shot_witness :
    ((PENTA_ANGLES.map (fun a => a)).Pairwise (· ≠ ·)) ∧
    (0 : ℚ) < 11 / 10 ∧
    (BossEnemy.create_penta_shot (fun a => a)
      (BossEnemy.init
        { BOSS_BASE_HEALTH := 50, BOSS_HEALTH_MULTIPLIER := 3 / 2,
          BOSS_POINTS := 500, BOSS_BASE_FIRE_RATE := 2,
          BOSS_FIRE_RATE_DECREASE := 9 / 10,
          BOSS_BULLET_SPEED_MULTIPLIER := 11 / 10 } 400 100 2)).length = 5 :=
  ⟨by norm_num [PENTA_ANGLES, List.pairwise_cons], by norm_num,
    (C8_penta_shot (fun a => a)
      { BOSS_BASE_HEALTH := 50, BOSS_HEALTH_MULTIPLIER := 3 / 2,
        BOSS_POINTS := 500, BOSS_BASE_FIRE_RATE := 2,
        BOSS_FIRE_RATE_DECREASE := 9 / 10,
        BOSS_BULLET_SPEED_MULTIPLIER := 11 / 10 } 400 100 2
      (by norm_num [PENTA_ANGLES, List.pairwise_cons]) (by norm_num)).1⟩

/-- **C9 (counterexample).**  `Enemy.take_damage` leaves an out-of-range
state unclamped: a one-health enemy taking 5 damage ends at health −4
(and is reported dead), and `Player.add_kill_to_streak` grows the streak
past the bonus threshold without any cap. -/
theorem C9_no_clamping_cex :
    (Enemy.take_damage 5
        { health := 1, max_health := 1, speed := 2, score_value := 10,
          can_shoot := true, shoot_timer := 0, bullet_speed_multiplier := 1,
          fire_rate_multiplier := 1, damage_flash_timer := 0 }).1.health
      = -4 ∧
    (Enemy.take_damage 5
        { health := 1, max_health := 1, speed := 2, score_value := 10,
          can_shoot := true, shoot_timer := 0, bullet_speed_multiplier := 1,
          fire_rate_multiplier := 1, damage_flash_timer := 0 }).2 = true ∧
    (Player.add_kill_to_streak
        { lives := 3, health := 3, max_lives := 3, max_health := 3,
          invincible := false, invincibility_timer := 0,
          damage_flash_timer := 0, time_since_damage := 0,
          kill_streak := 8 }).kill_streak = 9 ∧
    ¬(9 : ℕ) ≤ STREAK_BONUS_THRESHOLD := by
  refine ⟨?_, ?_, rfl, by decide⟩ <;> norm_num [Enemy.take_damage]

/-- **C9 (amended).**  All modelled core operations are total functions
(no exceptions).  `Player.take_damage` does clamp the player's health
back into `[0, max_health]`, and `Enemy.take_damage` never rejects
out-of-range amounts — but it leaves the enemy's health at exactly
`health − amount`, possibly negative (the dead enemy is then removed by
the collision manager), and `add_kill_to_streak` always increments with
no over-threshold clamp.  So out-of-range states are clamped for the
player's health only, contrary to the claim's "every out-of-range
numeric state". -/
theorem C9_clamping_behaviour (p : PlayerState) (amount : ℚ)
    (e : EnemyState) (d : ℤ) (hI : p.invincible = false) (h0 : 0 ≤ amount)
    (hh : 0 < p.health) (hmax : p.health ≤ p.max_health) :
    (0 ≤ (Player.take_damage amount p).1.health ∧
      (Player.take_damage amount p).1.health ≤ p.max_health) ∧
    (Enemy.take_damage d e).1.health = e.health - d ∧
    (Player.add_kill_to_streak p).kill_streak = p.kill_streak + 1 := by
  refine ⟨?_, ?_, rfl⟩
  · unfold Player.take_damage
    rw [hI]
    simp only [Bool.false_eq_true, if_false]
    by_cases h1 : p.health - amount ≤ 0
    · have h1' : p.health ≤ amount := by linarith
      by_cases h2 : (0 : ℤ) < p.lives - 1
      · simp [h1, h1', h2]
        linarith
      · simp [h1, h1', h2]
        linarith
    · have h1' : ¬p.health ≤ amount := fun h => h1 (by linarith)
      simp [h1, h1']
      constructor <;> linarith
  · simp only [Enemy.take_damage]
    split_ifs <;> rfl

/-- **C9 (witness).**  The clamping statement applied to a concrete
non-invincible player taking 1 damage. -/
theorem C9_clamping_behaviour_witness :
    ({ lives := 3, health := 2, max_lives := 3, max_health := 3,
       invincible := false, invincibility_timer := 0,
       damage_flash_timer := 0, time_since_damage := 0,
       kill_streak := 0 } : PlayerState).invincible = false ∧
    (0 : ℚ) ≤ 1 ∧ (0 : ℚ) < 2 ∧ (2 : ℚ) ≤ 3 ∧
    0 ≤ (Player.take_damage 1
        { lives := 3, health := 2, max_lives := 3, max_health := 3,
          invincible := false, invincibility_timer := 0,
          damage_flash_timer := 0, time_since_damage := 0,
          kill_streak := 0 }).1.health :=
  ⟨rfl, by norm_num, by norm_num, by norm_num,
    (C9_clamping_behaviour _ 1
      { health := 1, max_health := 1, speed := 2, score_value := 10,
        can_shoot := true, shoot_timer := 0, bullet_speed_multiplier := 1,
        fire_rate_multiplier := 1, damage_flash_timer := 0 } 0 rfl
      (by norm_num) (by norm_num) (by norm_num)).1.1⟩

